import Mathlib

/-
Verification of the microfluidic hardware simulator (`hardware_simulator.py`
and `multi_pump_controller.py`) against its natural-language specification.

Numeric fields of the Python code (floats) are modelled as rationals, so
every arithmetic step of the source is reproduced exactly.  The Python
built-in `int(...)` (truncation toward zero) is modelled by `pyInt`.
Randomness (pressure jitter, fault injection) and real elapsed time are
modelled by explicit tick environments passed to the update-loop step.
-/

namespace HardwareSim

/-- Truncation toward zero, the behaviour of Python's `int(...)` on a float. -/
def pyInt (q : ℚ) : ℤ := if 0 ≤ q then ⌊q⌋ else ⌈q⌉

/-- Lifecycle states of the Bartels pump (`PumpState` in the source). -/
inductive PumpState where
  | off
  | on
  | error
deriving DecidableEq

/-- State of one `BartelsPumpSimulator` instance: every mutable field of the
Python object that the claims mention. -/
structure BartelsPump where
  state : PumpState
  flow_rate : ℚ
  target_flow_rate : ℚ
  volume_remaining : ℚ
  simulate_errs : Bool
  pressure : ℚ
  total_volume_dispensed : ℚ
  frequency : ℚ
  amplitude : ℚ
  mode : String
  fault_status : Bool
deriving DecidableEq

/-- `BartelsPumpSimulator.__init__`. -/
def initPump (initial_volume : ℚ) (simulate_errs : Bool) : BartelsPump :=
  { state := PumpState.off
    flow_rate := 0
    target_flow_rate := 0
    volume_remaining := initial_volume
    simulate_errs := simulate_errs
    pressure := 0
    total_volume_dispensed := 0
    frequency := 100
    amplitude := 0
    mode := "frequency"
    fault_status := false }

/-- `BartelsPumpSimulator.start`: valid only from `OFF`; the spawned thread is
modelled by enabling tick events while the state is `ON`. -/
def start (p : BartelsPump) : Bool × BartelsPump :=
  if p.state = PumpState.off then (true, { p with state := PumpState.on })
  else (false, p)

/-- `BartelsPumpSimulator.stop`: valid only from `ON`; zeroes the flow rate. -/
def stop (p : BartelsPump) : Bool × BartelsPump :=
  if p.state = PumpState.on then
    (true, { p with state := PumpState.off, flow_rate := 0 })
  else (false, p)

/-- `BartelsPumpSimulator.set_flow_rate`: rejects rates outside 0–14, sets the
target flow rate and recomputes `amplitude = min(100, int((rate / 14.0) * 100))`. -/
def set_flow_rate (rate : ℚ) (p : BartelsPump) : Bool × BartelsPump :=
  if rate < 0 ∨ 14 < rate then (false, p)
  else
    (true, { p with
      target_flow_rate := rate
      amplitude := ((min 100 (pyInt (rate / 14 * 100)) : ℤ) : ℚ) })

/-- `BartelsPumpSimulator._get_frequency_factor`. -/
def get_frequency_factor (frequency : ℚ) : ℚ :=
  if frequency < 100 then 0.5 + 0.5 * (frequency / 100)
  else if 150 < frequency then 1 - 0.5 * min 1 ((frequency - 150) / 650)
  else 1

/-- `BartelsPumpSimulator.set_frequency`: rejects frequencies outside 25–800,
stores the new frequency, computes the efficiency factor inline (same formula
as `_get_frequency_factor`) and rescales the target flow rate by
`factor_new / factor_old`. -/
def set_frequency (frequency : ℚ) (p : BartelsPump) : Bool × BartelsPump :=
  if frequency < 25 ∨ 800 < frequency then (false, p)
  else
    let prev_frequency := p.frequency
    let frequency_factor :=
      if frequency < 100 then 0.5 + 0.5 * (frequency / 100)
      else if 150 < frequency then 1 - 0.5 * min 1 ((frequency - 150) / 650)
      else 1
    (true, { p with
      frequency := frequency
      target_flow_rate :=
        p.target_flow_rate * (frequency_factor / get_frequency_factor prev_frequency) })

/-- `BartelsPumpSimulator.set_amplitude`: rejects values outside 0–100, stores
the amplitude and derives `target_flow_rate = (pct / 100) * 14 * factor(frequency)`. -/
def set_amplitude (amplitude_percent : ℚ) (p : BartelsPump) : Bool × BartelsPump :=
  if amplitude_percent < 0 ∨ 100 < amplitude_percent then (false, p)
  else
    (true, { p with
      amplitude := amplitude_percent
      target_flow_rate := amplitude_percent / 100 * 14 * get_frequency_factor p.frequency })

/-- `BartelsPumpSimulator.set_mode`: accepts exactly `analog`, `digital`,
`frequency`. -/
def set_mode (mode : String) (p : BartelsPump) : Bool × BartelsPump :=
  if mode = "analog" ∨ mode = "digital" ∨ mode = "frequency" then
    (true, { p with mode := mode })
  else (false, p)

/-- `BartelsPumpSimulator.refill`: rejects non-positive volumes. -/
def refill (volume : ℚ) (p : BartelsPump) : Bool × BartelsPump :=
  if volume ≤ 0 then (false, p)
  else (true, { p with volume_remaining := p.volume_remaining + volume })

/-- Environment of one iteration of `_simulate_running`: the real time elapsed
since the previous iteration, the sampled pressure perturbation
(`random.uniform(-10, 10)` in the source) and whether the fault-injection roll
(`random.random() < 0.001`) fired. -/
structure TickEnv where
  elapsed : ℚ
  pressure_noise : ℚ
  fault_roll : Bool
deriving DecidableEq

/-- Tail of one `_simulate_running` iteration: pressure perturbation followed by
the optional injected fault (only reached when the volume update did not
deplete the reservoir). -/
def pump_tick_post (env : TickEnv) (p : BartelsPump) : BartelsPump :=
  let p1 := { p with pressure := max 0 (min 500 (p.pressure + env.pressure_noise)) }
  if p1.simulate_errs ∧ env.fault_roll then { p1 with state := PumpState.error }
  else p1

/-- One iteration of the `_simulate_running` loop body: ramp the flow rate
toward the target by at most `2.0 * elapsed`, integrate the dispensed volume,
deplete to `ERROR` when the reservoir runs out (leaving the flow rate frozen),
otherwise perturb the pressure and roll for an injected fault. -/
def pump_tick (env : TickEnv) (p : BartelsPump) : BartelsPump :=
  let fr :=
    if p.flow_rate = p.target_flow_rate then p.flow_rate
    else if p.flow_rate < p.target_flow_rate then
      min p.target_flow_rate (p.flow_rate + 2 * env.elapsed)
    else
      max p.target_flow_rate (p.flow_rate - 2 * env.elapsed)
  let volume_dispensed := fr / 60 * env.elapsed
  if 0 < volume_dispensed then
    if volume_dispensed ≤ p.volume_remaining then
      pump_tick_post env
        { p with
          flow_rate := fr
          volume_remaining := p.volume_remaining - volume_dispensed
          total_volume_dispensed := p.total_volume_dispensed + volume_dispensed }
    else
      { p with
        flow_rate := fr
        total_volume_dispensed := p.total_volume_dispensed + p.volume_remaining
        volume_remaining := 0
        state := PumpState.error }
  else
    pump_tick_post env { p with flow_rate := fr }

/-- The background loop runs its body only while the pump is `ON` (the loop
breaks as soon as `running` is cleared or an error transition happens). -/
def run_ticks (ticks : List TickEnv) (p : BartelsPump) : BartelsPump :=
  ticks.foldl (fun q env => if q.state = PumpState.on then pump_tick env q else q) p

/-- Result of `dispense_volume`: either a normal `bool` return with the
resulting pump state, or an escaped `ZeroDivisionError` from the duration
computation `(volume / self.target_flow_rate) * 60`. -/
inductive DispenseOutcome where
  | ret (success : Bool) (pump : BartelsPump)
  | zeroDivisionError (pump : BartelsPump)
deriving DecidableEq

/-- Pump state carried by a dispense outcome. -/
def outcomePump : DispenseOutcome → BartelsPump
  | DispenseOutcome.ret _ p => p
  | DispenseOutcome.zeroDivisionError p => p

/-- Bool returned by a dispense outcome (`false` when the call raised). -/
def outcome_success : DispenseOutcome → Bool
  | DispenseOutcome.ret b _ => b
  | DispenseOutcome.zeroDivisionError _ => false

/-- Body of `dispense_volume` after the validation guards and the optional
`set_flow_rate` call: remember whether the pump was off, start it if so,
compute the duration (raising `ZeroDivisionError` when the target flow rate is
zero), let the background loop run during the sleep (`ticks`), add the full
requested volume to `total_volume_dispensed`, subtract it from
`volume_remaining`, and stop the pump again when it had been off. -/
def dispense_core (volume : ℚ) (ticks : List TickEnv) (p : BartelsPump) : DispenseOutcome :=
  let was_off := p.state = PumpState.off
  let p2 := if was_off then (start p).2 else p
  if p2.target_flow_rate = 0 then DispenseOutcome.zeroDivisionError p2
  else
    let p3 := run_ticks ticks p2
    let p4 := { p3 with
      total_volume_dispensed := p3.total_volume_dispensed + volume
      volume_remaining := p3.volume_remaining - volume }
    DispenseOutcome.ret true (if was_off then (stop p4).2 else p4)

/-- `BartelsPumpSimulator.dispense_volume`: rejects `volume <= 0`, then
`volume > volume_remaining`, then applies the optional rate via
`set_flow_rate` (returning `False` when that fails), then runs the dispensing
body.  `ticks` are the background-loop iterations that happen during the
`time.sleep` of the dispensing wait. -/
def dispense_volume (volume : ℚ) (rate : Option ℚ) (ticks : List TickEnv)
    (p : BartelsPump) : DispenseOutcome :=
  if volume ≤ 0 then DispenseOutcome.ret false p
  else if p.volume_remaining < volume then DispenseOutcome.ret false p
  else
    match rate with
    | some r =>
        let res := set_flow_rate r p
        if res.1 then dispense_core volume ticks res.2
        else DispenseOutcome.ret false p
    | none => dispense_core volume ticks p

/-- Commands a controller or direct caller can issue to one pump, plus the
background-loop tick; used to describe the reachable states of a pump. -/
inductive PumpEvent where
  | start
  | stop
  | setFlowRate (rate : ℚ)
  | setFrequency (hz : ℚ)
  | setAmplitude (pct : ℚ)
  | setMode (m : String)
  | refill (volume : ℚ)
  | tick (env : TickEnv)
  | dispenseVolume (volume : ℚ) (rate : Option ℚ) (ticks : List TickEnv)

/-- Effect of one event on the pump state.  A tick only has an effect while
the pump is `ON` (the loop thread only exists then); a dispense leaves the
pump in whatever state the call, including a raised `ZeroDivisionError`,
leaves behind. -/
def apply_event : PumpEvent → BartelsPump → BartelsPump
  | PumpEvent.start, p => (start p).2
  | PumpEvent.stop, p => (stop p).2
  | PumpEvent.setFlowRate r, p => (set_flow_rate r p).2
  | PumpEvent.setFrequency f, p => (set_frequency f p).2
  | PumpEvent.setAmplitude a, p => (set_amplitude a p).2
  | PumpEvent.setMode m, p => (set_mode m p).2
  | PumpEvent.refill v, p => (refill v p).2
  | PumpEvent.tick env, p => if p.state = PumpState.on then pump_tick env p else p
  | PumpEvent.dispenseVolume v r ts, p => outcomePump (dispense_volume v r ts p)

/-- Run a sequence of events against a pump. -/
def run_events (evs : List PumpEvent) (p : BartelsPump) : BartelsPump :=
  evs.foldl (fun q e => apply_event e q) p

/-- The states a pump can be in: everything obtainable from a freshly
constructed pump by some sequence of operations and loop ticks. -/
def ReachablePump (p : BartelsPump) : Prop :=
  ∃ (initial_volume : ℚ) (simulate_errs : Bool) (evs : List PumpEvent),
    run_events evs (initPump initial_volume simulate_errs) = p

/-- Lifecycle states of the atomizer (`AtomizerState` in the source). -/
inductive AtomizerState where
  | off
  | on
  | error
deriving DecidableEq

/-- State of one `UltrasonicAtomizerSimulator` instance (the time-valued
fields `operation_time` and `last_start_time` are kept as rationals). -/
structure UltrasonicAtomizer where
  state : AtomizerState
  frequency : ℚ
  power_level : ℚ
  atomization_rate : ℚ
  volume_atomized : ℚ
  simulate_errs : Bool
  droplet_size : ℚ
  operation_time : ℚ
deriving DecidableEq

/-- `UltrasonicAtomizerSimulator.__init__`. -/
def initAtomizer (simulate_errs : Bool) : UltrasonicAtomizer :=
  { state := AtomizerState.off
    frequency := 113
    power_level := 50
    atomization_rate := 15
    volume_atomized := 0
    simulate_errs := simulate_errs
    droplet_size := 3
    operation_time := 0 }

/-- `UltrasonicAtomizerSimulator.set_power_level`: rejects levels outside
0–100, stores the level and derives `atomization_rate = (level / 100) * 30`
and `droplet_size = 5 - (4 * level / 100)`. -/
def set_power_level (level : ℚ) (a : UltrasonicAtomizer) : Bool × UltrasonicAtomizer :=
  if level < 0 ∨ 100 < level then (false, a)
  else
    (true, { a with
      power_level := level
      atomization_rate := level / 100 * 30
      droplet_size := 5 - 4 * level / 100 })

/-- One per-pump sub-operation of a sequence step, as accepted by
`MultiPumpController.run_synchronized_sequence` (the `action` key of a step's
per-device dict together with its parameters). -/
inductive PumpAction where
  | start
  | stop
  | setFlow (rate : ℚ)
  | setFrequency (hz : ℚ)
  | setAmplitude (amplitude : ℚ)
  | setMode (mode : String)
  | dispense (volume : ℚ) (rate : Option ℚ)
deriving DecidableEq

/-- A primitive command issued to a named pump while a sequence step
executes; the trace of these commands is what the phase-ordering claim is
about. -/
inductive PumpCommand where
  | start
  | stop
  | setFlowRate (rate : ℚ)
  | setFrequency (hz : ℚ)
  | setAmplitude (amplitude : ℚ)
  | setMode (mode : String)
  | dispenseVolume (volume : ℚ) (rate : Option ℚ)
deriving DecidableEq

/-- The per-kind groups accumulated while `run_synchronized_sequence` walks
over a step's `pumps` dict, together with the frequency/amplitude/mode
commands it applies inline during that walk. -/
structure StepGroups where
  start_ops : List String
  stop_ops : List String
  flow_ops : List (String × ℚ)
  dispense_ops : List (String × ℚ)
  dispense_rates : List (String × ℚ)
  inline_cmds : List (String × PumpCommand)
deriving DecidableEq

/-- Empty accumulator for the step partition. -/
def stepGroupsInit : StepGroups := ⟨[], [], [], [], [], []⟩

/-- One iteration of the partition loop of `run_synchronized_sequence`: skip
unknown pump ids, append start/stop/set-flow/dispense operations to their
group (with the optional dispense rate going to `dispense_rates`), and emit
frequency/amplitude/mode actions inline. -/
def partition_step_fn (pump_ids : List String) (g : StepGroups)
    (op : String × PumpAction) : StepGroups :=
  if op.1 ∈ pump_ids then
    match op.2 with
    | PumpAction.start => { g with start_ops := g.start_ops ++ [op.1] }
    | PumpAction.stop => { g with stop_ops := g.stop_ops ++ [op.1] }
    | PumpAction.setFlow r => { g with flow_ops := g.flow_ops ++ [(op.1, r)] }
    | PumpAction.setFrequency hz =>
        { g with inline_cmds := g.inline_cmds ++ [(op.1, PumpCommand.setFrequency hz)] }
    | PumpAction.setAmplitude a =>
        { g with inline_cmds := g.inline_cmds ++ [(op.1, PumpCommand.setAmplitude a)] }
    | PumpAction.setMode m =>
        { g with inline_cmds := g.inline_cmds ++ [(op.1, PumpCommand.setMode m)] }
    | PumpAction.dispense v r =>
        { g with
          dispense_ops := g.dispense_ops ++ [(op.1, v)]
          dispense_rates := g.dispense_rates ++
            (match r with | some x => [(op.1, x)] | none => []) }
  else g

/-- The whole partition pass over one step's per-device operations. -/
def partition_step (pump_ids : List String) (ops : List (String × PumpAction)) : StepGroups :=
  ops.foldl (partition_step_fn pump_ids) stepGroupsInit

/-- Trace of commands one step of `run_synchronized_sequence` issues:
first the inline frequency/amplitude/mode commands (applied while
partitioning), then - each guarded by its group being non-empty - the
`set_flow_rates` fan-out, the `start_all_pumps` fan-out (which first applies
the captured target flow rates of the pumps being started, then issues
`start` to every managed pump), the `dispense_volumes` fan-out (looking each
pump's rate up in the collected rate dict), and finally the stops.
`target_of` is the target flow rate `start_all_pumps` reads from each pump
when building its flow-rate dict. -/
def run_step_trace (pump_ids : List String) (target_of : String → ℚ)
    (ops : List (String × PumpAction)) : List (String × PumpCommand) :=
  let g := partition_step pump_ids ops
  g.inline_cmds
  ++ (if g.flow_ops.isEmpty then []
      else g.flow_ops.filterMap (fun fo =>
        if fo.1 ∈ pump_ids then some (fo.1, PumpCommand.setFlowRate fo.2) else none))
  ++ (if g.start_ops.isEmpty then []
      else
        (g.start_ops.filterMap (fun pid =>
          if pid ∈ pump_ids then some (pid, PumpCommand.setFlowRate (target_of pid)) else none))
        ++ pump_ids.map (fun pid => (pid, PumpCommand.start)))
  ++ (if g.dispense_ops.isEmpty then []
      else g.dispense_ops.filterMap (fun dv =>
        if dv.1 ∈ pump_ids then
          some (dv.1, PumpCommand.dispenseVolume dv.2 (g.dispense_rates.lookup dv.1))
        else none))
  ++ (if g.stop_ops.isEmpty then []
      else g.stop_ops.map (fun pid => (pid, PumpCommand.stop)))

/-- Modelled from the spec's wording of the frequency efficiency factor:
`1.0 for 100 <= x <= 150`, `0.5 + 0.5*(x/100)` for `x < 100`, and
`1.0 - 0.5*min(1, (x-150)/650)` for `x > 150`; compared below with the
factor the source computes. -/
def specFrequencyFactor (x : ℚ) : ℚ :=
  if 100 ≤ x ∧ x ≤ 150 then 1
  else if x < 100 then 0.5 + 0.5 * (x / 100)
  else 1 - 0.5 * min 1 ((x - 150) / 650)

/-- First step of the C9 scenario: `set_frequency 25` on a fresh pump. -/
def c9_pump_1 : BartelsPump := (set_frequency 25 (initPump 100 false)).2

/-- Second step of the C9 scenario: `set_flow_rate 14`. -/
def c9_pump_2 : BartelsPump := (set_flow_rate 14 c9_pump_1).2

/-- Third step of the C9 scenario: `set_frequency 100`. -/
def c9_pump_3 : BartelsPump := (set_frequency 100 c9_pump_2).2

/-- A pump stuck in the `ERROR` lifecycle state, used to witness that
setpoint operations ignore the lifecycle state. -/
def errorPump : BartelsPump := { initPump 100 false with state := PumpState.error }

/-- A pump running at a steady 12 ml/min (flow rate already equal to the
target) with 100 ml remaining: the C2 failing input. -/
def steadyPump : BartelsPump :=
  { state := PumpState.on
    flow_rate := 12
    target_flow_rate := 12
    volume_remaining := 100
    simulate_errs := false
    pressure := 0
    total_volume_dispensed := 0
    frequency := 100
    amplitude := 85
    mode := "frequency"
    fault_status := false }

/-- The background-loop iterations during the 1/25 ml dispense below: the wait
is `(1/25) / 12 * 60 = 0.2` seconds, i.e. two 0.1-second loop ticks with no
pressure noise and no injected fault. -/
def dispenseTicks : List TickEnv := [⟨1 / 10, 0, false⟩, ⟨1 / 10, 0, false⟩]

/-- A pump that ran dry: 1 ml initial volume, target 14 ml/min, one loop
iteration after 60 seconds of elapsed time depletes the reservoir. -/
def depletedPump : BartelsPump :=
  run_events [PumpEvent.setFlowRate 14, PumpEvent.start, PumpEvent.tick ⟨60, 0, false⟩]
    (initPump 1 false)

/-- Selection of the frequency/amplitude/mode actions a step applies inline,
in input order, skipping unknown pump ids. -/
def inlineSel (pump_ids : List String) (op : String × PumpAction) :
    Option (String × PumpCommand) :=
  match op.2 with
  | PumpAction.setFrequency hz =>
      if op.1 ∈ pump_ids then some (op.1, PumpCommand.setFrequency hz) else none
  | PumpAction.setAmplitude a =>
      if op.1 ∈ pump_ids then some (op.1, PumpCommand.setAmplitude a) else none
  | PumpAction.setMode m =>
      if op.1 ∈ pump_ids then some (op.1, PumpCommand.setMode m) else none
  | _ => none

/-- Selection of the pump ids with a `start` action. -/
def startIdSel (pump_ids : List String) (op : String × PumpAction) : Option String :=
  match op.2 with
  | PumpAction.start => if op.1 ∈ pump_ids then some op.1 else none
  | _ => none

/-- Selection of the pump ids with a `stop` action. -/
def stopIdSel (pump_ids : List String) (op : String × PumpAction) : Option String :=
  match op.2 with
  | PumpAction.stop => if op.1 ∈ pump_ids then some op.1 else none
  | _ => none

/-- Selection of the `set_flow` actions as (id, rate) pairs. -/
def flowPairSel (pump_ids : List String) (op : String × PumpAction) :
    Option (String × ℚ) :=
  match op.2 with
  | PumpAction.setFlow r => if op.1 ∈ pump_ids then some (op.1, r) else none
  | _ => none

/-- Selection of the `dispense` actions as (id, volume) pairs. -/
def dispPairSel (pump_ids : List String) (op : String × PumpAction) :
    Option (String × ℚ) :=
  match op.2 with
  | PumpAction.dispense v _ => if op.1 ∈ pump_ids then some (op.1, v) else none
  | _ => none

/-- Selection of the dispense-rate entries: `dispense` actions that carry an
explicit rate. -/
def rateSel (pump_ids : List String) (op : String × PumpAction) :
    Option (String × ℚ) :=
  match op.2 with
  | PumpAction.dispense _ (some x) => if op.1 ∈ pump_ids then some (op.1, x) else none
  | _ => none

/-- The spec's inline phase: the step's frequency/amplitude/mode commands in
input order. -/
def specInlineGroup (pump_ids : List String) (ops : List (String × PumpAction)) :
    List (String × PumpCommand) :=
  ops.filterMap (inlineSel pump_ids)

/-- The spec's set-flow phase: the step's `set_flow` commands in input order. -/
def specFlowGroup (pump_ids : List String) (ops : List (String × PumpAction)) :
    List (String × PumpCommand) :=
  ops.filterMap (fun op => match op.2 with
    | PumpAction.setFlow r =>
        if op.1 ∈ pump_ids then some (op.1, PumpCommand.setFlowRate r) else none
    | _ => none)

/-- The spec's start phase: when the step contains at least one `start`
action, first the captured target-flow-rate commands for the started pumps,
then a `start` command to every managed pump (the code's `start_all_pumps`
fans out over all of them). -/
def specStartGroup (pump_ids : List String) (target_of : String → ℚ)
    (ops : List (String × PumpAction)) : List (String × PumpCommand) :=
  if (ops.filterMap (startIdSel pump_ids)).isEmpty then []
  else
    (ops.filterMap (fun op => match op.2 with
      | PumpAction.start =>
          if op.1 ∈ pump_ids then
            some (op.1, PumpCommand.setFlowRate (target_of op.1))
          else none
      | _ => none))
    ++ pump_ids.map (fun pid => (pid, PumpCommand.start))

/-- The step's dispense-rate dict, in input order. -/
def specDispenseRates (pump_ids : List String) (ops : List (String × PumpAction)) :
    List (String × ℚ) :=
  ops.filterMap (rateSel pump_ids)

/-- The spec's dispense phase: the step's `dispense` commands in input order,
each with its rate looked up in the step's rate dict. -/
def specDispenseGroup (pump_ids : List String) (ops : List (String × PumpAction)) :
    List (String × PumpCommand) :=
  ops.filterMap (fun op => match op.2 with
    | PumpAction.dispense v _ =>
        if op.1 ∈ pump_ids then
          some (op.1, PumpCommand.dispenseVolume v
            ((specDispenseRates pump_ids ops).lookup op.1))
        else none
    | _ => none)

/-- The spec's stop phase: the step's `stop` commands in input order. -/
def specStopGroup (pump_ids : List String) (ops : List (String × PumpAction)) :
    List (String × PumpCommand) :=
  ops.filterMap (fun op => match op.2 with
    | PumpAction.stop =>
        if op.1 ∈ pump_ids then some (op.1, PumpCommand.stop) else none
    | _ => none)

/-- The specification's frequency factor coincides with the source's
`_get_frequency_factor`. -/
theorem specFrequencyFactor_eq (x : ℚ) :
    specFrequencyFactor x = get_frequency_factor x := by
  unfold specFrequencyFactor get_frequency_factor
  by_cases hA : 100 ≤ x ∧ x ≤ 150
  · rw [if_pos hA, if_neg (not_lt.mpr hA.1), if_neg (not_lt.mpr hA.2)]
  · by_cases hB : x < 100
    · rw [if_neg hA, if_pos hB, if_pos hB]
    · have h150 : 150 < x := by
        by_contra hc
        exact hA ⟨le_of_not_lt hB, le_of_not_lt hc⟩
      rw [if_neg hA, if_neg hB, if_neg hB, if_pos h150]

/-- On non-negative inputs Python's `int(...)` is the floor. -/
theorem pyInt_eq_floor (q : ℚ) (h : 0 ≤ q) : pyInt q = ⌊q⌋ := by
  simp [pyInt, h]

/-- Helper simp fact about the pump lifecycle states. -/
theorem pumpState_on_ne_off : PumpState.on ≠ PumpState.off := by decide

/-- Helper simp fact about the pump lifecycle states. -/
theorem pumpState_off_ne_on : PumpState.off ≠ PumpState.on := by decide

/-- Helper simp fact about the pump lifecycle states. -/
theorem pumpState_error_ne_on : PumpState.error ≠ PumpState.on := by decide

/-- Helper simp fact about the pump lifecycle states. -/
theorem pumpState_error_ne_off : PumpState.error ≠ PumpState.off := by decide

/-- C1 (counterexample): at flow rate 13 the code stores amplitude
`min(100, int((13/14)*100)) = 92`, while the claim's
`round(min(100, 13/14*100)) = 93`; the claim as stated is false. -/
theorem c1_set_flow_rate_round_counterexample :
    ¬ ((set_flow_rate 13 (initPump 100 false)).1 = true ∧
       (set_flow_rate 13 (initPump 100 false)).2.amplitude
         = ((round (min 100 ((13 : ℚ) / 14 * 100)) : ℤ) : ℚ)) := by
  intro h
  have hpy : pyInt ((650 : ℚ) / 7) = 92 := by
    rw [pyInt, if_pos (by norm_num : (0 : ℚ) ≤ 650 / 7)]
    exact Int.floor_eq_iff.mpr (by norm_num)
  have h92 : (set_flow_rate 13 (initPump 100 false)).2.amplitude = 92 := by
    norm_num [set_flow_rate, hpy]
  have h93 : (round (min 100 ((13 : ℚ) / 14 * 100)) : ℤ) = 93 := by
    rw [min_eq_right (by norm_num : (13 : ℚ) / 14 * 100 ≤ 100), round_eq]
    exact Int.floor_eq_iff.mpr (by norm_num)
  rw [h92, h93] at h
  exact absurd h.2 (by norm_num)

/-- C1 (amended): for every flow rate `0 <= r <= 14`, `set_flow_rate r`
succeeds, afterwards the amplitude equals `floor(min(100, r/14*100))` -
the code truncates with `int(...)` instead of rounding - and the target flow
rate equals `r`. -/
theorem c1_set_flow_rate_amplitude_floor (p : BartelsPump) (r : ℚ)
    (h0 : 0 ≤ r) (h14 : r ≤ 14) :
    (set_flow_rate r p).1 = true ∧
    (set_flow_rate r p).2.amplitude = ((⌊min 100 (r / 14 * 100)⌋ : ℤ) : ℚ) ∧
    (set_flow_rate r p).2.target_flow_rate = r := by
  have hguard : ¬ (r < 0 ∨ 14 < r) := by
    push_neg
    exact ⟨h0, h14⟩
  have hq : (0 : ℚ) ≤ r / 14 * 100 := by positivity
  have h100 : ⌊(100 : ℚ)⌋ = 100 := by norm_num
  have hfloor : ⌊min (100 : ℚ) (r / 14 * 100)⌋ = min 100 ⌊r / 14 * 100⌋ := by
    rcases le_total (100 : ℚ) (r / 14 * 100) with h | h
    · rw [min_eq_left h, h100, min_eq_left (Int.le_floor.mpr (by exact_mod_cast h))]
    · rw [min_eq_right h, min_eq_right (h100 ▸ Int.floor_mono h)]
  refine ⟨by simp [set_flow_rate, hguard], ?_, by simp [set_flow_rate, hguard]⟩
  simp only [set_flow_rate, hguard, if_false]
  rw [pyInt_eq_floor _ hq, hfloor]

/-- C1 (amended) at a concrete input: rate 13 on a fresh pump. -/
theorem c1_set_flow_rate_amplitude_floor_witness :
    (set_flow_rate 13 (initPump 100 false)).1 = true ∧
    (set_flow_rate 13 (initPump 100 false)).2.amplitude
      = ((⌊min 100 ((13 : ℚ) / 14 * 100)⌋ : ℤ) : ℚ) ∧
    (set_flow_rate 13 (initPump 100 false)).2.target_flow_rate = 13 :=
  c1_set_flow_rate_amplitude_floor (initPump 100 false) 13 (by norm_num) (by norm_num)

/-- C5: for every pump (with its stored drive frequency in the valid 25-800
range, as every constructed pump has) and every requested frequency `hz`,
an in-range `set_frequency hz` succeeds, stores `hz`, and rescales the target
flow rate by exactly `f(hz) / f(old)` with `f` the spec's frequency
efficiency factor; an out-of-range `hz` is rejected with the pump unchanged. -/
theorem c5_set_frequency_rescales_target (p : BartelsPump) (hz : ℚ)
    (hp1 : 25 ≤ p.frequency) (hp2 : p.frequency ≤ 800) :
    (25 ≤ hz → hz ≤ 800 →
      (set_frequency hz p).1 = true ∧
      (set_frequency hz p).2.frequency = hz ∧
      (set_frequency hz p).2.target_flow_rate
        = p.target_flow_rate * (specFrequencyFactor hz / specFrequencyFactor p.frequency)) ∧
    (hz < 25 ∨ 800 < hz → set_frequency hz p = (false, p)) := by
  have hrange : 25 ≤ p.frequency ∧ p.frequency ≤ 800 := ⟨hp1, hp2⟩
  constructor
  · intro h1 h2
    have hguard : ¬ (hz < 25 ∨ 800 < hz) := by
      push_neg
      exact ⟨h1, h2⟩
    refine ⟨by simp [set_frequency, hguard], by simp [set_frequency, hguard], ?_⟩
    simp only [set_frequency, hguard, if_false]
    rw [specFrequencyFactor_eq, specFrequencyFactor_eq]
    simp only [get_frequency_factor]
  · intro h
    simp [set_frequency, h]

/-- C5 at concrete inputs: `set_frequency 50` on a fresh pump succeeds and
rescales, `set_frequency 10` is rejected unchanged. -/
theorem c5_set_frequency_rescales_target_witness :
    ((set_frequency 50 (initPump 100 false)).1 = true ∧
     (set_frequency 50 (initPump 100 false)).2.frequency = 50 ∧
     (set_frequency 50 (initPump 100 false)).2.target_flow_rate
       = (initPump 100 false).target_flow_rate *
           (specFrequencyFactor 50 / specFrequencyFactor (initPump 100 false).frequency)) ∧
    set_frequency 10 (initPump 100 false) = (false, initPump 100 false) :=
  ⟨(c5_set_frequency_rescales_target (initPump 100 false) 50
      (by norm_num [initPump]) (by norm_num [initPump])).1 (by norm_num) (by norm_num),
   (c5_set_frequency_rescales_target (initPump 100 false) 10
      (by norm_num [initPump]) (by norm_num [initPump])).2 (Or.inl (by norm_num))⟩

/-- C6: a dispense request for a non-positive volume, or for more volume than
remains, returns `False` and leaves the pump, every field included,
unchanged. -/
theorem c6_dispense_reject_leaves_state (p : BartelsPump) (V : ℚ)
    (ticks : List TickEnv) (h : V ≤ 0 ∨ p.volume_remaining < V) :
    dispense_volume V none ticks p = DispenseOutcome.ret false p := by
  by_cases h0 : V ≤ 0
  · simp [dispense_volume, h0]
  · have hv : p.volume_remaining < V := h.resolve_left h0
    simp [dispense_volume, h0, hv]

/-- C6 at a concrete input: requesting 200 ml from a pump holding 100 ml. -/
theorem c6_dispense_reject_leaves_state_witness :
    dispense_volume 200 none [] (initPump 100 false)
      = DispenseOutcome.ret false (initPump 100 false) :=
  c6_dispense_reject_leaves_state (initPump 100 false) 200 [] (Or.inr (by norm_num [initPump]))

/-- C7: an in-range `set_power_level pct` on the atomizer succeeds and derives
`atomization_rate = pct/100*30` and `droplet_size = 5 - 4*pct/100`; an
out-of-range level is rejected with the atomizer unchanged. -/
theorem c7_set_power_level_derived_fields (a : UltrasonicAtomizer) (level : ℚ) :
    (0 ≤ level → level ≤ 100 →
      (set_power_level level a).1 = true ∧
      (set_power_level level a).2.atomization_rate = level / 100 * 30 ∧
      (set_power_level level a).2.droplet_size = 5 - 4 * level / 100) ∧
    (level < 0 ∨ 100 < level → set_power_level level a = (false, a)) := by
  constructor
  · intro h1 h2
    have hguard : ¬ (level < 0 ∨ 100 < level) := by
      push_neg
      exact ⟨h1, h2⟩
    exact ⟨by simp [set_power_level, hguard], by simp [set_power_level, hguard],
      by simp [set_power_level, hguard]⟩
  · intro h
    simp [set_power_level, h]

/-- C7 at concrete inputs: power level 80 succeeds with rate 24 and droplet
size 1.8; level 150 is rejected unchanged. -/
theorem c7_set_power_level_derived_fields_witness :
    ((set_power_level 80 (initAtomizer false)).1 = true ∧
     (set_power_level 80 (initAtomizer false)).2.atomization_rate = 80 / 100 * 30 ∧
     (set_power_level 80 (initAtomizer false)).2.droplet_size = 5 - 4 * 80 / 100) ∧
    set_power_level 150 (initAtomizer false) = (false, initAtomizer false) :=
  ⟨(c7_set_power_level_derived_fields (initAtomizer false) 80).1 (by norm_num) (by norm_num),
   (c7_set_power_level_derived_fields (initAtomizer false) 150).2 (Or.inr (by norm_num))⟩

/-- C9: the individually valid calls `set_frequency 25`, `set_flow_rate 14`,
`set_frequency 100` all succeed and leave `target_flow_rate = 22.4`, beyond
the pump's 0-14 flow range: the rescaling in `set_frequency` is unclamped. -/
theorem c9_target_flow_exceeds_range :
    (set_frequency 25 (initPump 100 false)).1 = true ∧
    (set_flow_rate 14 c9_pump_1).1 = true ∧
    (set_frequency 100 c9_pump_2).1 = true ∧
    c9_pump_3.target_flow_rate = 224 / 10 ∧
    14 < c9_pump_3.target_flow_rate := by
  have hpy : pyInt ((100 : ℚ)) = 100 := by
    rw [pyInt, if_pos (by norm_num : (0 : ℚ) ≤ 100)]
    exact Int.floor_eq_iff.mpr (by norm_num)
  have e1 : c9_pump_1 =
      { state := PumpState.off, flow_rate := 0, target_flow_rate := 0
        volume_remaining := 100, simulate_errs := false, pressure := 0
        total_volume_dispensed := 0, frequency := 25, amplitude := 0
        mode := "frequency", fault_status := false } := by
    norm_num [c9_pump_1, set_frequency, initPump, get_frequency_factor]
  have e2 : c9_pump_2 =
      { state := PumpState.off, flow_rate := 0, target_flow_rate := 14
        volume_remaining := 100, simulate_errs := false, pressure := 0
        total_volume_dispensed := 0, frequency := 25, amplitude := 100
        mode := "frequency", fault_status := false } := by
    rw [c9_pump_2, e1]
    norm_num [set_flow_rate, hpy]
  have e3 : c9_pump_3.target_flow_rate = 224 / 10 := by
    rw [c9_pump_3, e2]
    norm_num [set_frequency, get_frequency_factor]
  exact ⟨by norm_num [set_frequency], by norm_num [set_flow_rate],
    by norm_num [set_frequency], e3, by rw [e3]; norm_num⟩

/-- C10: the four setpoint operations validate only their argument range and
never consult the lifecycle state: on an arbitrary pump - in particular one
in the `ERROR` state - in-range arguments always succeed, update the
corresponding setpoint, and leave the lifecycle state untouched. -/
theorem c10_setpoints_accepted_in_all_states (p : BartelsPump)
    (rate hz pct : ℚ) (m : String)
    (hr1 : 0 ≤ rate) (hr2 : rate ≤ 14)
    (hh1 : 25 ≤ hz) (hh2 : hz ≤ 800)
    (ha1 : 0 ≤ pct) (ha2 : pct ≤ 100)
    (hm : m = "analog" ∨ m = "digital" ∨ m = "frequency") :
    ((set_flow_rate rate p).1 = true ∧
     (set_flow_rate rate p).2.target_flow_rate = rate ∧
     (set_flow_rate rate p).2.state = p.state) ∧
    ((set_frequency hz p).1 = true ∧
     (set_frequency hz p).2.frequency = hz ∧
     (set_frequency hz p).2.state = p.state) ∧
    ((set_amplitude pct p).1 = true ∧
     (set_amplitude pct p).2.amplitude = pct ∧
     (set_amplitude pct p).2.state = p.state) ∧
    ((set_mode m p).1 = true ∧
     (set_mode m p).2.mode = m ∧
     (set_mode m p).2.state = p.state) := by
  have hg1 : ¬ (rate < 0 ∨ 14 < rate) := by
    push_neg
    exact ⟨hr1, hr2⟩
  have hg2 : ¬ (hz < 25 ∨ 800 < hz) := by
    push_neg
    exact ⟨hh1, hh2⟩
  have hg3 : ¬ (pct < 0 ∨ 100 < pct) := by
    push_neg
    exact ⟨ha1, ha2⟩
  refine ⟨⟨?_, ?_, ?_⟩, ⟨?_, ?_, ?_⟩, ⟨?_, ?_, ?_⟩, ⟨?_, ?_, ?_⟩⟩ <;>
    simp [set_flow_rate, set_frequency, set_amplitude, set_mode, hg1, hg2, hg3, hm]

/-- C10 at a concrete input: a pump in the `ERROR` state accepts all four
setpoint operations. -/
theorem c10_setpoints_accepted_in_all_states_witness :
    ((set_flow_rate 7 errorPump).1 = true ∧
     (set_flow_rate 7 errorPump).2.target_flow_rate = 7 ∧
     (set_flow_rate 7 errorPump).2.state = errorPump.state) ∧
    ((set_frequency 200 errorPump).1 = true ∧
     (set_frequency 200 errorPump).2.frequency = 200 ∧
     (set_frequency 200 errorPump).2.state = errorPump.state) ∧
    ((set_amplitude 50 errorPump).1 = true ∧
     (set_amplitude 50 errorPump).2.amplitude = 50 ∧
     (set_amplitude 50 errorPump).2.state = errorPump.state) ∧
    ((set_mode "digital" errorPump).1 = true ∧
     (set_mode "digital" errorPump).2.mode = "digital" ∧
     (set_mode "digital" errorPump).2.state = errorPump.state) :=
  c10_setpoints_accepted_in_all_states errorPump 7 200 50 "digital"
    (by norm_num) (by norm_num) (by norm_num) (by norm_num) (by norm_num) (by norm_num)
    (Or.inr (Or.inl rfl))

/-- C4: on a fresh pump (whose target flow rate is still 0) a dispense of 5 ml
with no rate argument passes both validation guards, starts the pump, and
then the duration computation `(volume / self.target_flow_rate) * 60` divides
by zero: the call escapes with `ZeroDivisionError` instead of returning a
failure result. -/
theorem c4_dispense_zero_target_division :
    dispense_volume 5 none [] (initPump 100 false)
      = DispenseOutcome.zeroDivisionError { initPump 100 false with state := PumpState.on } := by
  norm_num [dispense_volume, dispense_core, start, initPump]

/-- C2 (code bug): dispensing 1/25 ml at 12 ml/min from the steady pump
completes with success, but the two volume fields change by twice the
requested volume: the background loop already integrates the dispensed volume
during the wait, and the completion step then adds/subtracts the full volume
again.  The net change the claim requires (−V and +V) differs from what the
code produces (−2V and +2V). -/
theorem c2_dispense_double_decrement :
    outcome_success (dispense_volume (1 / 25) (some 12) dispenseTicks steadyPump) = true ∧
    (outcomePump (dispense_volume (1 / 25) (some 12) dispenseTicks steadyPump)).volume_remaining
      = steadyPump.volume_remaining - 2 * (1 / 25) ∧
    (outcomePump (dispense_volume (1 / 25) (some 12) dispenseTicks steadyPump)).total_volume_dispensed
      = steadyPump.total_volume_dispensed + 2 * (1 / 25) ∧
    steadyPump.volume_remaining - 2 * (1 / 25) ≠ steadyPump.volume_remaining - 1 / 25 := by
  have hpy : pyInt ((600 : ℚ) / 7) = 85 := by
    rw [pyInt, if_pos (by norm_num : (0 : ℚ) ≤ 600 / 7)]
    exact Int.floor_eq_iff.mpr (by norm_num)
  norm_num [dispense_volume, dispense_core, set_flow_rate, hpy, run_ticks, dispenseTicks,
    pump_tick, pump_tick_post, steadyPump, outcomePump, outcome_success, start, stop,
    pumpState_on_ne_off, pumpState_off_ne_on, pumpState_error_ne_on, pumpState_error_ne_off]

/-- Unfolding lemma for a single background-loop iteration. -/
theorem run_ticks_cons (t : TickEnv) (ts : List TickEnv) (p : BartelsPump) :
    run_ticks (t :: ts) p
      = run_ticks ts (if p.state = PumpState.on then pump_tick t p else p) := rfl

/-- Unfolding lemma for a single event. -/
theorem run_events_cons (e : PumpEvent) (evs : List PumpEvent) (p : BartelsPump) :
    run_events (e :: evs) p = run_events evs (apply_event e p) := rfl

/-- A loop iteration either keeps the lifecycle state or moves it to `ERROR`
(depletion or injected fault); it never reaches `OFF` on its own. -/
theorem pump_tick_state_cases (env : TickEnv) (p : BartelsPump) :
    (pump_tick env p).state = p.state ∨ (pump_tick env p).state = PumpState.error := by
  unfold pump_tick pump_tick_post
  dsimp only
  split_ifs <;> simp

/-- A loop iteration started from `ON` never lands in `OFF`. -/
theorem pump_tick_ne_off (env : TickEnv) (p : BartelsPump)
    (h : p.state = PumpState.on) : (pump_tick env p).state ≠ PumpState.off := by
  rcases pump_tick_state_cases env p with hc | hc <;> rw [hc]
  · rw [h]
    exact pumpState_on_ne_off
  · exact pumpState_error_ne_off

/-- The background loop never moves a pump into `OFF`. -/
theorem run_ticks_ne_off (ticks : List TickEnv) (q : BartelsPump)
    (h : q.state ≠ PumpState.off) : (run_ticks ticks q).state ≠ PumpState.off := by
  induction ticks generalizing q with
  | nil => exact h
  | cons t ts ih =>
      rw [run_ticks_cons]
      by_cases hs : q.state = PumpState.on
      · rw [if_pos hs]
        exact ih _ (pump_tick_ne_off t q hs)
      · rw [if_neg hs]
        exact ih _ h

/-- The background loop preserves the invariant that an `OFF` pump has zero
flow rate. -/
theorem offFlowZero_run_ticks (ticks : List TickEnv) (p : BartelsPump)
    (h : p.state = PumpState.off → p.flow_rate = 0) :
    (run_ticks ticks p).state = PumpState.off → (run_ticks ticks p).flow_rate = 0 := by
  induction ticks generalizing p with
  | nil => exact h
  | cons t ts ih =>
      rw [run_ticks_cons]
      by_cases hs : p.state = PumpState.on
      · rw [if_pos hs]
        intro hoff
        exact absurd hoff (run_ticks_ne_off ts _ (pump_tick_ne_off t p hs))
      · rw [if_neg hs]
        exact ih p h

/-- `dispense_volume`'s core preserves the invariant that an `OFF` pump has
zero flow rate (the final `stop` zeroes the flow whenever it turns the pump
off). -/
theorem offFlowZero_dispense_core (volume : ℚ) (ticks : List TickEnv) (p : BartelsPump)
    (h : p.state = PumpState.off → p.flow_rate = 0) :
    (outcomePump (dispense_core volume ticks p)).state = PumpState.off →
    (outcomePump (dispense_core volume ticks p)).flow_rate = 0 := by
  unfold dispense_core
  dsimp only
  by_cases hoff : p.state = PumpState.off
  · rw [if_pos hoff]
    have hp2 : ((start p).2).state = PumpState.on := by
      rw [start, if_pos hoff]
    by_cases ht : ((start p).2).target_flow_rate = 0
    · rw [if_pos ht]
      intro hc
      exact absurd (hp2 ▸ hc) (by exact fun hx => pumpState_on_ne_off (hx ▸ rfl))
    · rw [if_neg ht, if_pos hoff]
      have hne : (run_ticks ticks (start p).2).state ≠ PumpState.off :=
        run_ticks_ne_off ticks _ (fun hx => pumpState_on_ne_off (hp2 ▸ hx))
      rw [stop]
      by_cases hon : (run_ticks ticks (start p).2).state = PumpState.on
      · rw [if_pos hon]
        intro _
        rfl
      · rw [if_neg hon]
        intro hc
        exact absurd hc hne
  · rw [if_neg hoff]
    by_cases ht : p.target_flow_rate = 0
    · rw [if_pos ht]
      exact h
    · rw [if_neg ht, if_neg hoff]
      exact offFlowZero_run_ticks ticks p h

/-- Every single event preserves the invariant that an `OFF` pump has zero
flow rate. -/
theorem offFlowZero_apply_event (e : PumpEvent) (p : BartelsPump)
    (h : p.state = PumpState.off → p.flow_rate = 0) :
    (apply_event e p).state = PumpState.off → (apply_event e p).flow_rate = 0 := by
  cases e with
  | start =>
      rw [apply_event, start]
      by_cases hs : p.state = PumpState.off
      · rw [if_pos hs]
        intro hc
        exact absurd hc pumpState_on_ne_off
      · rw [if_neg hs]
        exact h
  | stop =>
      rw [apply_event, stop]
      by_cases hs : p.state = PumpState.on
      · rw [if_pos hs]
        intro _
        rfl
      · rw [if_neg hs]
        exact h
  | setFlowRate r =>
      rw [apply_event, set_flow_rate]
      split_ifs <;> exact h
  | setFrequency f =>
      rw [apply_event, set_frequency]
      split_ifs <;> exact h
  | setAmplitude a =>
      rw [apply_event, set_amplitude]
      split_ifs <;> exact h
  | setMode m =>
      rw [apply_event, set_mode]
      split_ifs <;> exact h
  | refill v =>
      rw [apply_event, refill]
      split_ifs <;> exact h
  | tick env =>
      rw [apply_event]
      by_cases hs : p.state = PumpState.on
      · rw [if_pos hs]
        intro hc
        exact absurd hc (pump_tick_ne_off env p hs)
      · rw [if_neg hs]
        exact h
  | dispenseVolume v r ts =>
      rw [apply_event]
      unfold dispense_volume
      split_ifs with h1 h2
      · exact h
      · exact h
      · cases r with
        | none => exact offFlowZero_dispense_core v ts p h
        | some rr =>
            dsimp only
            by_cases hsf : (set_flow_rate rr p).1 = true
            · rw [if_pos hsf]
              have hstate : (set_flow_rate rr p).2.state = p.state := by
                rw [set_flow_rate]
                split_ifs <;> rfl
              have hflow : (set_flow_rate rr p).2.flow_rate = p.flow_rate := by
                rw [set_flow_rate]
                split_ifs <;> rfl
              exact offFlowZero_dispense_core v ts _
                (fun hx => hflow ▸ h (hstate ▸ hx))
            · rw [if_neg hsf]
              exact h

/-- Event sequences preserve the invariant that an `OFF` pump has zero flow
rate. -/
theorem offFlowZero_run_events (evs : List PumpEvent) (p : BartelsPump)
    (h : p.state = PumpState.off → p.flow_rate = 0) :
    (run_events evs p).state = PumpState.off → (run_events evs p).flow_rate = 0 := by
  induction evs generalizing p with
  | nil => exact h
  | cons e es ih =>
      rw [run_events_cons]
      exact ih _ (offFlowZero_apply_event e p h)

/-- C3 (amended): in every reachable pump state, the readback flow rate is 0
whenever the lifecycle state is `OFF`.  (In the `ERROR` state the flow rate
is frozen at its last computed value and can be non-zero, as the
counterexample shows.) -/
theorem c3_flow_zero_when_off (p : BartelsPump) (h : ReachablePump p) :
    p.state = PumpState.off → p.flow_rate = 0 := by
  obtain ⟨v0, se, evs, rfl⟩ := h
  exact offFlowZero_run_events evs (initPump v0 se) (fun _ => rfl)

/-- C3 (amended) at a concrete input: a freshly constructed pump is `OFF`
with zero flow. -/
theorem c3_flow_zero_when_off_witness : (initPump 100 false).flow_rate = 0 :=
  c3_flow_zero_when_off (initPump 100 false) ⟨100, false, [], rfl⟩ rfl

/-- C3 (counterexample): the depleted pump is reachable, its state is `ERROR`
(not `ON`), and its flow rate is 14, not 0 - the depletion branch of the
update loop freezes the flow rate instead of zeroing it. -/
theorem c3_error_state_nonzero_flow_counterexample :
    ReachablePump depletedPump ∧
    depletedPump.state ≠ PumpState.on ∧
    depletedPump.flow_rate ≠ 0 := by
  have hpy : pyInt ((100 : ℚ)) = 100 := by
    rw [pyInt, if_pos (by norm_num : (0 : ℚ) ≤ 100)]
    exact Int.floor_eq_iff.mpr (by norm_num)
  have e : depletedPump =
      { state := PumpState.error, flow_rate := 14, target_flow_rate := 14
        volume_remaining := 0, simulate_errs := false, pressure := 0
        total_volume_dispensed := 1, frequency := 100, amplitude := 100
        mode := "frequency", fault_status := false } := by
    norm_num [depletedPump, run_events, apply_event, set_flow_rate, start, pump_tick,
      pump_tick_post, initPump, hpy, min_def, max_def,
      pumpState_on_ne_off, pumpState_off_ne_on, pumpState_error_ne_on, pumpState_error_ne_off]
  refine ⟨⟨1, false, [PumpEvent.setFlowRate 14, PumpEvent.start, PumpEvent.tick ⟨60, 0, false⟩], rfl⟩, ?_, ?_⟩
  · rw [e]
    exact pumpState_error_ne_on
  · rw [e]
    norm_num

/-- The partition loop, run from an arbitrary accumulator, appends to each
group exactly the input-ordered selection of the matching action kind. -/
theorem partition_step_fn_foldl (pump_ids : List String)
    (ops : List (String × PumpAction)) (g : StepGroups) :
    ops.foldl (partition_step_fn pump_ids) g =
      { start_ops := g.start_ops ++ ops.filterMap (startIdSel pump_ids)
        stop_ops := g.stop_ops ++ ops.filterMap (stopIdSel pump_ids)
        flow_ops := g.flow_ops ++ ops.filterMap (flowPairSel pump_ids)
        dispense_ops := g.dispense_ops ++ ops.filterMap (dispPairSel pump_ids)
        dispense_rates := g.dispense_rates ++ ops.filterMap (rateSel pump_ids)
        inline_cmds := g.inline_cmds ++ ops.filterMap (inlineSel pump_ids) } := by
  induction ops generalizing g with
  | nil => simp
  | cons op t ih =>
      obtain ⟨pid, a⟩ := op
      rw [List.foldl_cons, ih]
      by_cases hm : pid ∈ pump_ids <;>
        rcases a with _ | _ | r | hz | amp | m | ⟨v, _ | x⟩ <;>
        simp [partition_step_fn, hm, inlineSel, startIdSel, stopIdSel, flowPairSel,
          dispPairSel, rateSel, List.filterMap_cons, List.append_assoc]

/-- The partitioning of one step is exactly the per-kind, input-ordered
selection of its operations. -/
theorem partition_step_eq (pump_ids : List String) (ops : List (String × PumpAction)) :
    partition_step pump_ids ops =
      { start_ops := ops.filterMap (startIdSel pump_ids)
        stop_ops := ops.filterMap (stopIdSel pump_ids)
        flow_ops := ops.filterMap (flowPairSel pump_ids)
        dispense_ops := ops.filterMap (dispPairSel pump_ids)
        dispense_rates := ops.filterMap (rateSel pump_ids)
        inline_cmds := ops.filterMap (inlineSel pump_ids) } := by
  rw [partition_step, partition_step_fn_foldl]
  simp [stepGroupsInit]

/-- Emitting the collected flow group equals selecting the step's `set_flow`
commands directly. -/
theorem flow_emit_eq (pump_ids : List String) (ops : List (String × PumpAction)) :
    ((ops.filterMap (flowPairSel pump_ids)).filterMap (fun fo =>
      if fo.1 ∈ pump_ids then some (fo.1, PumpCommand.setFlowRate fo.2) else none))
    = ops.filterMap (fun op => match op.2 with
        | PumpAction.setFlow r =>
            if op.1 ∈ pump_ids then some (op.1, PumpCommand.setFlowRate r) else none
        | _ => none) := by
  induction ops with
  | nil => rfl
  | cons op t ih =>
      obtain ⟨pid, a⟩ := op
      by_cases hm : pid ∈ pump_ids <;> cases a <;>
        simp [flowPairSel, hm, List.filterMap_cons, ih]

/-- Emitting the captured flow-rate commands of the start phase equals
selecting the step's `start` actions directly. -/
theorem start_flow_emit_eq (pump_ids : List String) (target_of : String → ℚ)
    (ops : List (String × PumpAction)) :
    ((ops.filterMap (startIdSel pump_ids)).filterMap (fun pid =>
      if pid ∈ pump_ids then some (pid, PumpCommand.setFlowRate (target_of pid)) else none))
    = ops.filterMap (fun op => match op.2 with
        | PumpAction.start =>
            if op.1 ∈ pump_ids then
              some (op.1, PumpCommand.setFlowRate (target_of op.1))
            else none
        | _ => none) := by
  induction ops with
  | nil => rfl
  | cons op t ih =>
      obtain ⟨pid, a⟩ := op
      by_cases hm : pid ∈ pump_ids <;> cases a <;>
        simp [startIdSel, hm, List.filterMap_cons, ih]

/-- Emitting the collected stop group equals selecting the step's `stop`
commands directly. -/
theorem stop_emit_eq (pump_ids : List String) (ops : List (String × PumpAction)) :
    (ops.filterMap (stopIdSel pump_ids)).map (fun pid => (pid, PumpCommand.stop))
    = ops.filterMap (fun op => match op.2 with
        | PumpAction.stop =>
            if op.1 ∈ pump_ids then some (op.1, PumpCommand.stop) else none
        | _ => none) := by
  induction ops with
  | nil => rfl
  | cons op t ih =>
      obtain ⟨pid, a⟩ := op
      by_cases hm : pid ∈ pump_ids <;> cases a <;>
        simp [stopIdSel, hm, List.filterMap_cons, ih]

/-- Emitting the collected dispense group (rates looked up in a fixed rate
dict) equals selecting the step's `dispense` commands directly. -/
theorem dispense_emit_eq (pump_ids : List String) (rates : List (String × ℚ))
    (ops : List (String × PumpAction)) :
    ((ops.filterMap (dispPairSel pump_ids)).filterMap (fun dv =>
      if dv.1 ∈ pump_ids then
        some (dv.1, PumpCommand.dispenseVolume dv.2 (rates.lookup dv.1))
      else none))
    = ops.filterMap (fun op => match op.2 with
        | PumpAction.dispense v _ =>
            if op.1 ∈ pump_ids then
              some (op.1, PumpCommand.dispenseVolume v (rates.lookup op.1))
            else none
        | _ => none) := by
  induction ops with
  | nil => rfl
  | cons op t ih =>
      obtain ⟨pid, a⟩ := op
      by_cases hm : pid ∈ pump_ids <;> cases a <;>
        simp [dispPairSel, hm, List.filterMap_cons, ih]

/-- Dropping the redundant emptiness guard around a `filterMap` emission. -/
theorem filterMap_of_isEmpty_if {α β : Type} (l : List α) (f : α → Option β) :
    (if l.isEmpty then ([] : List β) else l.filterMap f) = l.filterMap f := by
  cases l <;> simp

/-- Dropping the redundant emptiness guard around a `map` emission. -/
theorem map_of_isEmpty_if {α β : Type} (l : List α) (f : α → β) :
    (if l.isEmpty then ([] : List β) else l.map f) = l.map f := by
  cases l <;> simp

/-- C8: the trace of one sequence step is exactly the step's operations
partitioned by kind and executed in the fixed phase order: the inline
frequency/amplitude/mode commands first (in input order), then the set-flow
group, the start group, the dispense group, and finally the stop group. -/
theorem c8_run_step_phase_order (pump_ids : List String) (target_of : String → ℚ)
    (ops : List (String × PumpAction)) :
    run_step_trace pump_ids target_of ops
      = specInlineGroup pump_ids ops
        ++ specFlowGroup pump_ids ops
        ++ specStartGroup pump_ids target_of ops
        ++ specDispenseGroup pump_ids ops
        ++ specStopGroup pump_ids ops := by
  rw [run_step_trace, partition_step_eq]
  dsimp only
  rw [filterMap_of_isEmpty_if, filterMap_of_isEmpty_if, map_of_isEmpty_if]
  rw [flow_emit_eq, start_flow_emit_eq, dispense_emit_eq, stop_emit_eq]
  rfl

end HardwareSim
